import Mathlib

/-!
Verification of the outbound HTTP proxy with SSRF protection of this
repository (`Backend/utils/security.py` and `Backend/routes/proxy_routes.py`).

The Python source is shallowly embedded: every pure check becomes an
executable Lean function over `String` / explicit value types, the Flask
route handlers become functions from an explicit environment, request data
and an upstream-outcome oracle to a response value.  Machine behaviour that
the claims do not exercise (logging, CORS `OPTIONS` handling, the raw JSON
parse of the inbound Flask request) is not modelled; every branch that a
claim touches is.
-/

namespace AskProxy

/-- Python `s.lower()` (ASCII lowercasing is modelled). -/
def lowerStr (s : String) : String :=
  String.mk (s.data.map Char.toLower)

/-- Python `s.upper()` (ASCII uppercasing is modelled). -/
def upperStr (s : String) : String :=
  String.mk (s.data.map Char.toUpper)

/-- Python `s.startswith(p)`. -/
def startsWithStr (s p : String) : Bool :=
  p.data.isPrefixOf s.data

/-- Containment of `pat` in `s` starting at some position. -/
def charsContain (pat : List Char) : List Char → Bool
  | [] => pat.isEmpty
  | c :: rest => pat.isPrefixOf (c :: rest) || charsContain pat rest

/-- Python `pat in s` substring containment on strings. -/
def strContains (s pat : String) : Bool :=
  charsContain pat.data s.data

/-! ### URL parsing (model of `urllib.parse.urlparse` hostname extraction)

`is_safe_url` uses `urlparse(url).hostname`.  For an `http://` / `https://`
URL the netloc is the character run after the `//` up to the first `/`, `?`
or `#`; the hostinfo is the part after the last `@`; the hostname is the
bracketed part for IPv6 literals, otherwise the part before the first `:`,
lowercased (ASCII lowercasing is modelled). -/

/-- Characters after the `http://` or `https://` scheme prefix, up to the
end of the netloc. -/
def netlocOf (url : String) : List Char :=
  let cs := url.data
  let rest :=
    if "https://".data.isPrefixOf cs then cs.drop 8
    else if "http://".data.isPrefixOf cs then cs.drop 7
    else []
  rest.takeWhile (fun c => !(c == '/' || c == '?' || c == '#'))

/-- Part of the netloc after the last `@` (userinfo stripping). -/
def hostinfoOf (netloc : List Char) : List Char :=
  if netloc.contains '@' then
    (netloc.reverse.takeWhile (fun c => !(c == '@'))).reverse
  else netloc

/-- Lowercased hostname of an absolute http/https URL, as
`urlparse(url).hostname or ''` computes it. -/
def hostnameOf (url : String) : String :=
  let hi := hostinfoOf (netlocOf url)
  let h :=
    if hi.contains '[' then
      ((hi.dropWhile (fun c => !(c == '['))).drop 1).takeWhile (fun c => !(c == ']'))
    else
      hi.takeWhile (fun c => !(c == ':'))
  lowerStr (String.mk h)

/-! ### `SSRFProtection.is_safe_url` -/

/-- Verdict `(is_safe, message)` returned by each validator. -/
structure Verdict where
  safe : Bool
  reason : String
deriving DecidableEq, Repr

/-- `SSRFProtection.DANGEROUS_HOSTS`. -/
def DANGEROUS_HOSTS : List String :=
  ["localhost", "127.0.0.1", "0.0.0.0", "[::1]", "::1", "169.254.169.254",
   "metadata.google.internal", "metadata", "metadata.azure.com"]

/-- The metadata-service keywords checked by rule 4 of `is_safe_url`. -/
def METADATA_KEYWORDS : List String :=
  ["metadata", "meta-data", "instance-data"]

/-- Regex `^172\.(1[6-9]|2[0-9]|3[01])\.` (the 172.16.0.0/12 pattern). -/
def is172Private (h : String) : Bool :=
  match h.data with
  | '1' :: '7' :: '2' :: '.' :: d1 :: d2 :: '.' :: _ =>
    (d1 == '1' && ['6', '7', '8', '9'].contains d2) ||
    (d1 == '2' && d2.isDigit) ||
    (d1 == '3' && (d2 == '0' || d2 == '1'))
  | _ => false

/-- `SSRFProtection.PRIVATE_IP_PATTERNS`: each entry is an anchored regex
`re.match`-ed against the hostname, in order; the disjunction is taken here
since all entries yield the same rejection message. -/
def privateIpMatch (h : String) : Bool :=
  startsWithStr h "10." || is172Private h || startsWithStr h "192.168." ||
  startsWithStr h "fc00:" || startsWithStr h "fe80:" || h == "::1" ||
  startsWithStr h "0.0.0.0" || startsWithStr h "127."

/-- The obfuscated-loopback patterns `^0x7f`, `^0177`, `^2130706433`. -/
def suspiciousMatch (h : String) : Bool :=
  startsWithStr h "0x7f" || startsWithStr h "0177" || startsWithStr h "2130706433"

/-- Rule 7: `hostname.count('.') > 3 and hostname.replace('.','').isdigit()`
(Python `str.isdigit` is false on the empty string; ASCII digits are
modelled). -/
def dottedDigitsMatch (h : String) : Bool :=
  decide (3 < h.data.count '.') &&
  (let rest := h.data.filter (fun c => !(c == '.'))
   !rest.isEmpty && rest.all Char.isDigit)

/-- `SSRFProtection.is_safe_url` from `Backend/utils/security.py`. -/
def is_safe_url (url : String) : Verdict :=
  if url == "" then ⟨false, "URL is required"⟩
  else if !(startsWithStr url "http://" || startsWithStr url "https://") then
    ⟨false, "Only HTTP and HTTPS protocols are allowed"⟩
  else
    let hostname := hostnameOf url
    if hostname == "" then ⟨false, "URL must contain a valid hostname"⟩
    else if DANGEROUS_HOSTS.contains hostname then
      ⟨false, "Access to " ++ hostname ++ " is blocked for security reasons"⟩
    else if strContains hostname "localhost" then
      ⟨false, "Access to localhost is blocked for security reasons"⟩
    else if METADATA_KEYWORDS.any (fun k => strContains hostname k) then
      ⟨false, "Access to metadata services is blocked for security reasons"⟩
    else if privateIpMatch hostname then
      ⟨false, "Access to private IP addresses is blocked for security reasons"⟩
    else if suspiciousMatch hostname then
      ⟨false, "Suspicious IP address format blocked"⟩
    else if dottedDigitsMatch hostname then
      ⟨false, "Invalid IP address format"⟩
    else ⟨true, "URL passed security validation"⟩

/-! ### Ordered-rule restatement of the classifier (spec side of claim C1)

The spec describes the classifier as an ordered rule list where the first
matching rule wins and supplies the verdict.  `c1Rules` lists the rules in
the spec order; `classifyOrderedSpec` returns the first match. -/

/-- The classifier rules stated as (condition, rejection reason) pairs in
the order the spec gives them. -/
def c1Rules (url : String) : List (Bool × String) :=
  let hostname := hostnameOf url
  [ (url == "", "URL is required"),
    (!(startsWithStr url "http://" || startsWithStr url "https://"),
      "Only HTTP and HTTPS protocols are allowed"),
    (hostname == "", "URL must contain a valid hostname"),
    (DANGEROUS_HOSTS.contains hostname,
      "Access to " ++ hostname ++ " is blocked for security reasons"),
    (strContains hostname "localhost",
      "Access to localhost is blocked for security reasons"),
    (METADATA_KEYWORDS.any (fun k => strContains hostname k),
      "Access to metadata services is blocked for security reasons"),
    (privateIpMatch hostname,
      "Access to private IP addresses is blocked for security reasons"),
    (suspiciousMatch hostname, "Suspicious IP address format blocked"),
    (dottedDigitsMatch hostname, "Invalid IP address format") ]

/-- First-matching-rule verdict, following the wording of the spec. -/
def classifyOrderedSpec (url : String) : Verdict :=
  match (c1Rules url).find? (fun r => r.1) with
  | some r => ⟨false, r.2⟩
  | none => ⟨true, "URL passed security validation"⟩

/-- The disjunction of unsafe conditions enumerated by claim C1. -/
def c1UnsafeCond (url : String) : Bool :=
  (url == "") || !(startsWithStr url "http://" || startsWithStr url "https://") ||
  (let h := hostnameOf url
   DANGEROUS_HOSTS.contains h || strContains h "localhost" ||
   METADATA_KEYWORDS.any (fun k => strContains h k) || privateIpMatch h ||
   suspiciousMatch h || dottedDigitsMatch h)

/-- The classifier equals its ordered first-match restatement. -/
theorem is_safe_url_eq_orderedSpec (url : String) :
    is_safe_url url = classifyOrderedSpec url := by
  simp only [is_safe_url, classifyOrderedSpec, c1Rules]
  cases h1 : (url == "") <;>
    simp only [h1, List.find?, cond_true, cond_false, Bool.false_eq_true,
      if_true, if_false, ite_true, ite_false]
  cases h2 : !(startsWithStr url "http://" || startsWithStr url "https://") <;>
    simp only [h2, cond_true, cond_false]
  cases h3 : (hostnameOf url == "") <;> simp only [h3, cond_true, cond_false]
  cases h4 : DANGEROUS_HOSTS.contains (hostnameOf url) <;>
    simp only [h4, cond_true, cond_false]
  cases h5 : strContains (hostnameOf url) "localhost" <;>
    simp only [h5, cond_true, cond_false]
  cases h6 : METADATA_KEYWORDS.any (fun k => strContains (hostnameOf url) k) <;>
    simp only [h6, cond_true, cond_false]
  cases h7 : privateIpMatch (hostnameOf url) <;>
    simp only [h7, cond_true, cond_false]
  cases h8 : suspiciousMatch (hostnameOf url) <;>
    simp only [h8, cond_true, cond_false]
  cases h9 : dottedDigitsMatch (hostnameOf url) <;>
    simp only [h9, cond_true, cond_false]
  all_goals simp

/-- If some rule condition holds, the first-match verdict is unsafe. -/
theorem classifyOrderedSpec_unsafe (url : String)
    (h : (c1Rules url).any (fun r => r.1) = true) :
    (classifyOrderedSpec url).safe = false := by
  have hs : ((c1Rules url).find? (fun r => r.1)).isSome := by
    rw [List.find?_isSome]
    obtain ⟨x, hx, hp⟩ := List.any_eq_true.mp h
    exact ⟨x, hx, hp⟩
  obtain ⟨r, hr⟩ := Option.isSome_iff_exists.mp hs
  unfold classifyOrderedSpec
  rw [hr]

/-- The conditions of claim C1 each appear among the ordered rules. -/
theorem c1Rules_any_of_cond (url : String) (hc : c1UnsafeCond url = true) :
    (c1Rules url).any (fun r => r.1) = true := by
  simp only [c1UnsafeCond, Bool.or_eq_true] at hc
  rw [List.any_eq_true]
  rcases hc with (h | h) | ((((h | h) | h) | h) | h) | h
  · exact ⟨(url == "", "URL is required"), by simp [c1Rules], h⟩
  · exact ⟨(!(startsWithStr url "http://" || startsWithStr url "https://"),
      "Only HTTP and HTTPS protocols are allowed"), by simp [c1Rules], h⟩
  · exact ⟨(DANGEROUS_HOSTS.contains (hostnameOf url),
      "Access to " ++ hostnameOf url ++ " is blocked for security reasons"),
      by simp [c1Rules], h⟩
  · exact ⟨(strContains (hostnameOf url) "localhost",
      "Access to localhost is blocked for security reasons"), by simp [c1Rules], h⟩
  · exact ⟨(METADATA_KEYWORDS.any fun k => strContains (hostnameOf url) k,
      "Access to metadata services is blocked for security reasons"),
      by simp [c1Rules], h⟩
  · exact ⟨(privateIpMatch (hostnameOf url),
      "Access to private IP addresses is blocked for security reasons"),
      by simp [c1Rules], h⟩
  · exact ⟨(suspiciousMatch (hostnameOf url), "Suspicious IP address format blocked"),
      by simp [c1Rules], h⟩
  · exact ⟨(dottedDigitsMatch (hostnameOf url), "Invalid IP address format"),
      by simp [c1Rules], h⟩

/-- A URL with the http or https scheme prefix is nonempty. -/
theorem ne_empty_of_proto (url : String)
    (h : (startsWithStr url "http://" || startsWithStr url "https://") = true) :
    (url == "") = false := by
  by_cases he : url = ""
  · subst he; exact absurd h (by decide)
  · simp [he]

/-- C1: every URL that is empty, has a non-http(s) protocol, or whose
extracted lowercased hostname hits the denylist, the localhost substring
check, a metadata keyword, a private-address pattern, an obfuscated
loopback form, or the dotted-all-digits shape is classified unsafe; the
seven listed hostnames are unsafe, `ftp://example.com` is unsafe, and the
classifier equals the ordered first-match rule list, so the first matching
rule supplies the returned reason. -/
theorem claim1_url_classifier_unsafe :
    (∀ url : String, c1UnsafeCond url = true → (is_safe_url url).safe = false) ∧
    (∀ h ∈ (["localhost", "127.0.0.1", "0.0.0.0", "169.254.169.254",
             "10.1.2.3", "192.168.1.1", "172.16.0.5"] : List String),
      (is_safe_url ("http://" ++ h ++ "/")).safe = false) ∧
    ((is_safe_url "ftp://example.com").safe = false) ∧
    (∀ url : String, is_safe_url url = classifyOrderedSpec url) := by
  refine ⟨?_, ?_, by decide, is_safe_url_eq_orderedSpec⟩
  · intro url hc
    rw [is_safe_url_eq_orderedSpec]
    exact classifyOrderedSpec_unsafe url (c1Rules_any_of_cond url hc)
  · intro h hm
    fin_cases hm <;> decide

/-- Witness for C1 at the private address 192.168.1.1. -/
theorem claim1_witness :
    c1UnsafeCond "http://192.168.1.1/" = true ∧
    (is_safe_url "http://192.168.1.1/").safe = false :=
  ⟨by decide, claim1_url_classifier_unsafe.1 "http://192.168.1.1/" (by decide)⟩

/-- No rule of the ordered list fires (rules 1 through 7 of the spec,
protocol and hostname-extraction gates included). -/
def noRuleMatches (url : String) : Bool :=
  (c1Rules url).all (fun r => !r.1)

/-- C8: every http(s) URL whose extracted hostname is `api.github.com`,
`example.org` or `api.weatherapi.com` is classified safe, and in general a
URL matched by none of the ordered rules is classified safe. -/
theorem claim8_safe_urls :
    (∀ url : String,
      (startsWithStr url "http://" || startsWithStr url "https://") = true →
      hostnameOf url ∈ (["api.github.com", "example.org",
        "api.weatherapi.com"] : List String) →
      (is_safe_url url).safe = true) ∧
    (∀ url : String, noRuleMatches url = true → (is_safe_url url).safe = true) := by
  constructor
  · intro url hproto hmem
    have hne := ne_empty_of_proto url hproto
    simp only [List.mem_cons, List.not_mem_nil, or_false] at hmem
    rcases hmem with hm | hm | hm <;>
      (simp only [is_safe_url, hne, hproto, hm]; decide)
  · intro url hall
    rw [is_safe_url_eq_orderedSpec]
    unfold classifyOrderedSpec
    have hf : (c1Rules url).find? (fun r => r.1) = none := by
      rw [List.find?_eq_none]
      intro x hx
      have := List.all_eq_true.mp hall x hx
      simp at this
      simp [this]
    simp [hf]

/-- Witness for C8 at `https://api.github.com/repos`. -/
theorem claim8_witness :
    (is_safe_url "https://api.github.com/repos").safe = true :=
  claim8_safe_urls.1 "https://api.github.com/repos" (by decide) (by decide)

/-! ### Python values

`validate_request_size` and `validate_headers` receive arbitrary JSON-derived
Python values.  `PyVal` models them; `pyRepr` / `pyStrFn` model Python
`repr()` / `str()` (faithful for printable characters, which is all the
repository ever passes), and `jsonDumps` models `json.dumps` with its
default separators and `ensure_ascii=True`. -/

mutual
inductive PyVal where
  | pyNone
  | pyBool (b : Bool)
  | pyInt (n : Int)
  | pyStr (s : String)
  | pyList (xs : PyItems)
  | pyDict (xs : PyPairs)
deriving DecidableEq, Repr

inductive PyItems where
  | inil
  | icons (v : PyVal) (rest : PyItems)
deriving DecidableEq, Repr

inductive PyPairs where
  | pnil
  | pcons (k : String) (v : PyVal) (rest : PyPairs)
deriving DecidableEq, Repr
end

/-- Python `repr` of a string: single quotes unless the string contains a
single quote and no double quote; backslash, quote and control characters
escaped. -/
def pyReprStrQ (s : String) : String :=
  let sq : Char := Char.ofNat 39
  let q : Char := if s.data.contains sq && !(s.data.contains '"') then '"' else sq
  let esc : Char → String := fun c =>
    if c == '\\' then "\\\\"
    else if c == q then String.mk ['\\', q]
    else if c == '\n' then "\\n"
    else if c == '\r' then "\\r"
    else if c == '\t' then "\\t"
    else String.singleton c
  String.singleton q ++ String.join (s.data.map esc) ++ String.singleton q

mutual
/-- Python `repr` on JSON-like values. -/
def pyRepr : PyVal → String
  | .pyNone => "None"
  | .pyBool true => "True"
  | .pyBool false => "False"
  | .pyInt n => toString n
  | .pyStr s => pyReprStrQ s
  | .pyList xs => "[" ++ pyReprItems xs ++ "]"
  | .pyDict xs => "\x7b" ++ pyReprPairs xs ++ "\x7d"

/-- `repr` of list elements joined by a comma and space. -/
def pyReprItems : PyItems → String
  | .inil => ""
  | .icons v .inil => pyRepr v
  | .icons v rest => pyRepr v ++ ", " ++ pyReprItems rest

/-- `repr` of dict entries joined by a comma and space. -/
def pyReprPairs : PyPairs → String
  | .pnil => ""
  | .pcons k v .pnil => pyReprStrQ k ++ ": " ++ pyRepr v
  | .pcons k v rest => pyReprStrQ k ++ ": " ++ pyRepr v ++ ", " ++ pyReprPairs rest
end

/-- Python `str()`: the identity on strings, `repr` otherwise (for the
JSON-like values that reach the validators). -/
def pyStrFn : PyVal → String
  | .pyStr s => s
  | v => pyRepr v

/-- One hexadecimal digit, lowercase. -/
def hexDigit (n : Nat) : Char :=
  if n < 10 then Char.ofNat (48 + n) else Char.ofNat (87 + n)

/-- Four-digit lowercase hexadecimal rendering used by `\uXXXX` escapes. -/
def hex4 (n : Nat) : String :=
  String.mk [hexDigit (n / 4096 % 16), hexDigit (n / 256 % 16),
             hexDigit (n / 16 % 16), hexDigit (n % 16)]

/-- `json.dumps` escaping of one character (`ensure_ascii=True`): keep
printable ASCII except quote and backslash, short escapes for the usual
control characters, `\uXXXX` (with surrogate pairs above `0xFFFF`) for the
rest. -/
def jsonEscChar (c : Char) : String :=
  if c == '"' then "\\\""
  else if c == '\\' then "\\\\"
  else if c == '\n' then "\\n"
  else if c == '\r' then "\\r"
  else if c == '\t' then "\\t"
  else if c.toNat == 8 then "\\b"
  else if c.toNat == 12 then "\\f"
  else if 32 ≤ c.toNat && c.toNat ≤ 126 then String.singleton c
  else if c.toNat < 65536 then "\\u" ++ hex4 c.toNat
  else
    let v := c.toNat - 65536
    "\\u" ++ hex4 (55296 + v / 1024) ++ "\\u" ++ hex4 (56320 + v % 1024)

/-- `json.dumps` of a string. -/
def jsonStr (s : String) : String :=
  "\"" ++ String.join (s.data.map jsonEscChar) ++ "\""

mutual
/-- `json.dumps` with default separators on JSON-like values. -/
def jsonDumps : PyVal → String
  | .pyNone => "null"
  | .pyBool true => "true"
  | .pyBool false => "false"
  | .pyInt n => toString n
  | .pyStr s => jsonStr s
  | .pyList xs => "[" ++ jsonItems xs ++ "]"
  | .pyDict xs => "\x7b" ++ jsonPairs xs ++ "\x7d"

/-- `json.dumps` of list elements joined by a comma and space. -/
def jsonItems : PyItems → String
  | .inil => ""
  | .icons v .inil => jsonDumps v
  | .icons v rest => jsonDumps v ++ ", " ++ jsonItems rest

/-- `json.dumps` of dict entries joined by a comma and space. -/
def jsonPairs : PyPairs → String
  | .pnil => ""
  | .pcons k v .pnil => jsonStr k ++ ": " ++ jsonDumps v
  | .pcons k v rest => jsonStr k ++ ": " ++ jsonDumps v ++ ", " ++ jsonPairs rest
end

/-! ### `SSRFProtection.validate_request_size` -/

/-- A request body: a JSON-derived Python value or a bytes object. -/
inductive Body where
  | val (v : PyVal)
  | bytes (bs : List UInt8)
deriving DecidableEq, Repr

/-- Python `body is None`. -/
def isNoneBody : Body → Bool
  | .val .pyNone => true
  | _ => false

/-- The byte count computed by `validate_request_size`: UTF-8 length for
strings, raw length for bytes, UTF-8 length of `json.dumps` for dicts and
of `str()` for everything else. -/
def bodySize : Body → Nat
  | .bytes bs => bs.length
  | .val (.pyStr s) => s.utf8ByteSize
  | .val (.pyDict xs) => (jsonDumps (.pyDict xs)).utf8ByteSize
  | .val v => (pyStrFn v).utf8ByteSize

/-- `SSRFProtection.validate_request_size` from `Backend/utils/security.py`
(the Python renders the failure message with MB figures via float
formatting; no claim depends on the message text, so byte counts stand in
for it here). -/
def validate_request_size (body : Body)
    (max_size : Nat := 10 * 1024 * 1024) : Verdict :=
  if isNoneBody body then ⟨true, "No body to validate"⟩
  else
    let size := bodySize body
    if max_size < size then
      ⟨false, "Request body too large: " ++ toString size ++ " bytes (max: " ++
        toString max_size ++ " bytes)"⟩
    else ⟨true, "Request size OK: " ++ toString size ++ " bytes"⟩

/-! ### `SSRFProtection.validate_headers` -/

/-- The argument of `validate_headers`: a Python dict (with JSON-derived
keys and values) or any non-dict value. -/
inductive HeadersArg where
  | notDict
  | dict (items : List (PyVal × PyVal))
deriving DecidableEq, Repr

/-- Newline or carriage-return containment (header-injection guard). -/
def containsNLCR (s : String) : Bool :=
  s.data.contains '\n' || s.data.contains '\r'

/-- The per-item loop of `validate_headers`, in dict iteration order. -/
def validateHeaderItems : List (PyVal × PyVal) → Verdict
  | [] => ⟨true, "Headers validated successfully"⟩
  | (k, v) :: rest =>
    if containsNLCR (pyStrFn k) then ⟨false, "Invalid characters in header name"⟩
    else if containsNLCR (pyStrFn v) then ⟨false, "Invalid characters in header value"⟩
    else if decide (1000 < (pyStrFn k).length) || decide (10000 < (pyStrFn v).length) then
      ⟨false, "Header name or value too long"⟩
    else validateHeaderItems rest

/-- `SSRFProtection.validate_headers` from `Backend/utils/security.py`. -/
def validate_headers : HeadersArg → Verdict
  | .notDict => ⟨false, "Headers must be a dictionary"⟩
  | .dict items => validateHeaderItems items

/-! ### Claims C6 and C7 -/

/-- UTF-8 length of a replicated ASCII character. -/
theorem utf8Len_replicate_a (n : Nat) :
    String.utf8Len (List.replicate n 'a') = n := by
  induction n with
  | zero => rfl
  | succ k ih => rw [List.replicate_succ, String.utf8Len_cons, ih]; rfl

/-- Claim-side serialized byte count of a body: UTF-8 length of the string,
raw length of bytes, UTF-8 length of the JSON text for dicts, and of the
Python `str()` text for every other value. -/
def bodySizeSpec : Body → Nat
  | .bytes bs => bs.length
  | .val (.pyStr s) => s.utf8ByteSize
  | .val (.pyDict xs) => (jsonDumps (.pyDict xs)).utf8ByteSize
  | .val v => (pyStrFn v).utf8ByteSize

/-- The implementation computes exactly the claim-side byte count. -/
theorem bodySizeSpec_eq (b : Body) : bodySizeSpec b = bodySize b := by
  cases b with
  | bytes bs => rfl
  | val v => cases v <;> rfl

/-- C6 counterexample: under the default limit the validator accepts a
string body of 10,000,001 UTF-8 bytes (the default is `10 * 1024 * 1024 =
10485760`, not `10_000_000` as claimed), and with `maxBytes = 5` it accepts
a list body whose JSON text is 6 bytes, because lists are serialized with
Python `str()` (5 bytes here), not with `json.dumps`. -/
theorem claim6_counterexample :
    ((validate_request_size
        (.val (.pyStr (String.mk (List.replicate 10000001 'a'))))).safe = true
      ∧ (String.mk (List.replicate 10000001 'a')).utf8ByteSize = 10000001
      ∧ 10 * 1024 * 1024 ≠ 10000000) ∧
    ((validate_request_size (.val (.pyList (.icons (.pyStr "\"") .inil))) 5).safe = true
      ∧ (jsonDumps (.pyList (.icons (.pyStr "\"") .inil))).utf8ByteSize = 6
      ∧ (pyStrFn (.pyList (.icons (.pyStr "\"") .inil))).utf8ByteSize = 5) := by
  have hsz : (String.mk (List.replicate 10000001 'a')).utf8ByteSize = 10000001 := by
    rw [String.utf8ByteSize_mk, utf8Len_replicate_a]
  refine ⟨⟨?_, hsz, by norm_num⟩, by decide, by decide, by decide⟩
  simp only [validate_request_size, isNoneBody, bodySize, hsz]
  norm_num

/-- C6 (amended): `validate_request_size` with default
`max_size = 10 * 1024 * 1024` returns safe exactly when the body is null or
its serialized byte count (strings and bytes directly, dicts as JSON text,
other values as Python `str()` text) is at most `max_size`; a 3-byte body
is safe at the 3-byte boundary and unsafe one byte above it. -/
theorem claim6_amended_size_check :
    (∀ b m, (validate_request_size b m).safe =
      (isNoneBody b || decide (bodySizeSpec b ≤ m))) ∧
    ((validate_request_size (.val .pyNone)).safe = true) ∧
    ((validate_request_size (.val (.pyStr "abc")) 3).safe = true) ∧
    ((validate_request_size (.val (.pyStr "abcd")) 3).safe = false) := by
  refine ⟨?_, by decide, by decide, by decide⟩
  intro b m
  rw [bodySizeSpec_eq]
  cases hn : isNoneBody b
  · simp only [validate_request_size, hn, Bool.false_eq_true, if_false, Bool.false_or]
    rcases Nat.lt_or_ge m (bodySize b) with hlt | hge
    · simp [hlt, Nat.not_le.mpr hlt]
    · simp [Nat.not_lt.mpr hge, hge]
  · simp [validate_request_size, hn]

/-- Claim-side predicate on one header entry: no CR/LF in the stringified
key or value, key at most 1000 characters, value at most 10000. -/
def headerItemOk (kv : PyVal × PyVal) : Bool :=
  !containsNLCR (pyStrFn kv.1) && !containsNLCR (pyStrFn kv.2) &&
  !(decide (1000 < (pyStrFn kv.1).length) || decide (10000 < (pyStrFn kv.2).length))

/-- C7 counterexample: a dict mapping the string key `X-Foo` to the integer
7 is not a string-to-string mapping, yet `validate_headers` accepts it —
non-dict arguments are the only type rejection, and non-string keys and
values are coerced with `str()`. -/
theorem claim7_counterexample :
    (validate_headers (.dict [(.pyStr "X-Foo", .pyInt 7)])).safe = true := by
  decide

/-- C7 (amended): `validate_headers` rejects every non-dict argument; on a
dict it is safe exactly when every entry, with key and value coerced by
Python `str()`, is free of CR/LF and within the 1000/10000 length bounds —
so the CRLF key example is unsafe and the plain string mapping is safe. -/
theorem claim7_amended_header_check :
    ((validate_headers .notDict).safe = false) ∧
    (∀ items, (validate_headers (.dict items)).safe = items.all headerItemOk) ∧
    ((validate_headers (.dict [(.pyStr "X-Foo\r\nX-Bar", .pyStr "v")])).safe = false) ∧
    ((validate_headers (.dict [(.pyStr "X-Foo", .pyStr "v")])).safe = true) := by
  refine ⟨rfl, ?_, by decide, by decide⟩
  intro items
  show (validateHeaderItems items).safe = items.all headerItemOk
  induction items with
  | nil => rfl
  | cons kv rest ih =>
    obtain ⟨k, v⟩ := kv
    simp only [validateHeaderItems, List.all_cons, headerItemOk]
    cases h1 : containsNLCR (pyStrFn k)
    · cases h2 : containsNLCR (pyStrFn v)
      · cases h3 : (decide (1000 < (pyStrFn k).length) ||
          decide (10000 < (pyStrFn v).length))
        · simp [h1, h2, h3, ih]
        · simp [h1, h2, h3]
      · simp [h1, h2]
    · simp [h1]

/-! ### Credential injection for the Anthropic upstream
(`proxy_api`, `Backend/routes/proxy_routes.py` lines 178-247) -/

/-- The placeholder credential values recognized by `proxy_api`. -/
def ANTHROPIC_PLACEHOLDERS : List String :=
  ["YOUR_API_KEY", "YOUR_API_KEY_HERE", "your-api-key-here", "$\x7bapiKey\x7d",
   "apiKey", "your_api_key", "YOUR-API-KEY", "<your-api-key>"]

/-- The `is_valid_key` plausibility test: nonempty, at least 20 characters,
not a recognized placeholder, and either the `sk-` vendor prefix or longer
than 50 characters. -/
def isValidAnthropicKey (v : String) : Bool :=
  !(v == "") && decide (20 ≤ v.length) && !(ANTHROPIC_PLACEHOLDERS.contains v) &&
  (startsWithStr v "sk-" || decide (50 < v.length))

/-- First header whose name lowercases to `name` (Python locates the
credential and version headers this way, in dict iteration order). -/
def findHeaderCI (hs : List (String × String)) (name : String) :
    Option (String × String) :=
  hs.find? (fun p => lowerStr p.1 == name)

/-- Value of the first header with exactly the name `name`. -/
def headerLookup (hs : List (String × String)) (name : String) : Option String :=
  (hs.find? (fun p => p.1 == name)).map Prod.snd

/-- The credential block of `proxy_api` for a URL containing
`api.anthropic.com`, given the configured server key: keep a plausible
caller credential, otherwise overwrite the located header with the server
key (Python assigns `headers[api_key_header] = anthropic_key`), or insert
`x-api-key` when no credential header exists. -/
def injectKeyStep (headers : List (String × String)) (key : String) :
    List (String × String) :=
  match findHeaderCI headers "x-api-key" with
  | some p =>
    if isValidAnthropicKey p.2 then headers
    else headers.map (fun q => if q.1 == p.1 then (q.1, key) else q)
  | none => headers ++ [("x-api-key", key)]

/-- Credential injection followed by the required-header step: add
`anthropic-version: 2023-06-01` if no such header exists (located
case-insensitively). -/
def injectAnthropic (headers : List (String × String)) (key : String) :
    List (String × String) :=
  match findHeaderCI (injectKeyStep headers key) "anthropic-version" with
  | some _ => injectKeyStep headers key
  | none => injectKeyStep headers key ++ [("anthropic-version", "2023-06-01")]

/-! ### The `/proxy-api` and `/proxy-docs` route handlers

The handlers are embedded as functions of the relevant environment
variables, the parsed request payload, and an oracle describing how the
outbound `requests` call would end (success with a body that does or does
not parse as JSON, a timeout, or another connection failure — in Python
both raise subclasses of `requests.exceptions.RequestException`).  The
result records whether an outbound request was issued (`forwarded`, with
its method, URL and final headers) or not (`noForward`), together with the
HTTP response. -/

/-- Environment variables read by `proxy_api`. -/
structure Env where
  flaskEnv : Option String
  flaskDebug : Option String
  anthropicKey : Option String
deriving DecidableEq, Repr

/-- The parsed JSON payload of a `/proxy-api` request. -/
structure ReqData where
  url : Option String
  method : String
  headers : List (String × String)
  body : Body
deriving DecidableEq, Repr

/-- Outcome of the outbound `requests` call: a response (with status,
reason, headers, raw text and optionally a successful JSON parse), a
timeout, or another connection error. -/
inductive Upstream where
  | success (status : Nat) (reason : String) (respHeaders : List (String × String))
      (text : String) (parsedJson : Option PyVal)
  | timeoutErr (msg : String)
  | connError (msg : String)
deriving DecidableEq, Repr

/-- The `data` field of a successful proxy response: parsed JSON or raw
text. -/
inductive RespData where
  | jsonD (v : PyVal)
  | textD (s : String)
deriving DecidableEq, Repr

/-- The success payload `{status, statusText, headers, data, url}`. -/
structure ResultPayload where
  status : Nat
  statusText : String
  headers : List (String × String)
  data : RespData
  url : String
deriving DecidableEq, Repr

/-- An HTTP response of the handler: a bare `{error}` payload, a
`{error, details, suggestion}` rejection, or the success payload. -/
inductive HttpResp where
  | err (status : Nat) (msg : String)
  | reject (status : Nat) (error details suggestion : String)
  | ok (p : ResultPayload)
deriving DecidableEq, Repr

/-- The outbound request the forwarding engine would issue. -/
structure Outbound where
  method : String
  url : String
  headers : List (String × String)
deriving DecidableEq, Repr

/-- Handler result: response plus whether an outbound request was made. -/
inductive ProxyResult where
  | noForward (resp : HttpResp)
  | forwarded (ob : Outbound) (resp : HttpResp)
deriving DecidableEq, Repr

/-- `FLASK_ENV == 'development' or FLASK_DEBUG == '1'`. -/
def isDevMode (env : Env) : Bool :=
  env.flaskEnv == some "development" || env.flaskDebug == some "1"

/-- `any(host in url.lower() for host in ['localhost','127.0.0.1','0.0.0.0'])`. -/
def isLocalhostUrl (url : String) : Bool :=
  (["localhost", "127.0.0.1", "0.0.0.0"] : List String).any
    (fun h => strContains (lowerStr url) h)

/-- String-to-string headers as the dict that `validate_headers` receives. -/
def headersAsPy (hs : List (String × String)) : HeadersArg :=
  .dict (hs.map (fun p => (PyVal.pyStr p.1, PyVal.pyStr p.2)))

/-- `Env.anthropicKey` is set and truthy. -/
def anthropicKeyTruthy (env : Env) : Option String :=
  match env.anthropicKey with
  | some k => if k == "" then none else some k
  | none => none

/-- The response built from the upstream outcome at the end of
`proxy_api`: a success is serialized as `{status, statusText, headers,
data, url}` with `data` the parsed JSON when `response.json()` succeeds and
the raw text otherwise; every `requests.exceptions.RequestException`
(timeouts included) is answered with status 500. -/
def proxyForwardResp (url : String) (up : Upstream) : HttpResp :=
  match up with
  | .success st reason rh text parsed =>
    .ok ⟨st, (if st == 200 then "OK" else reason), rh,
      (match parsed with
       | some v => .jsonD v
       | none => .textD text), url⟩
  | .timeoutErr m => .err 500 ("Request failed: " ++ m)
  | .connError m => .err 500 ("Request failed: " ++ m)

/-- The `/proxy-api` handler (`proxy_api` in
`Backend/routes/proxy_routes.py`), after the JSON payload has been parsed:
URL presence check, SSRF check with the development-mode localhost bypass,
body-size check, header check, Anthropic credential injection, then the
forward.  `data = none` models a missing/empty JSON payload. -/
def proxy_api (env : Env) (data : Option ReqData) (up : Upstream) : ProxyResult :=
  match data with
  | none => .noForward (.err 400 "Request data is required")
  | some d =>
    match d.url with
    | none => .noForward (.err 400 "URL is required")
    | some url =>
      if url == "" then .noForward (.err 400 "URL is required")
      else
        let vd := is_safe_url url
        if !vd.safe && !(isLocalhostUrl url && isDevMode env) then
          .noForward (.reject 403 "URL blocked for security reasons" vd.reason
            "Ensure you are not trying to access localhost, private networks, or metadata services")
        else
          let sv := validate_request_size d.body
          if !sv.safe then
            .noForward (.reject 413 "Request body too large" sv.reason
              "Reduce the size of your request body")
          else
            let hv := validate_headers (headersAsPy d.headers)
            if !hv.safe then
              .noForward (.reject 400 "Invalid request headers" hv.reason
                "Check your headers for invalid characters or excessive length")
            else
              if strContains url "api.anthropic.com" then
                match anthropicKeyTruthy env with
                | some k =>
                  .forwarded ⟨upperStr d.method, url, injectAnthropic d.headers k⟩
                    (proxyForwardResp url up)
                | none => .noForward (.err 500 "Anthropic API key not configured on server")
              else
                .forwarded ⟨upperStr d.method, url, d.headers⟩ (proxyForwardResp url up)

/-- A `/proxy-docs` response: a bare error, an error carrying the target
URL, the `{error, details}` SSRF rejection, or the
`{status, content_type, content, url, ok}` success payload. -/
inductive DocsResp where
  | err (status : Nat) (msg : String)
  | errWithUrl (status : Nat) (msg : String) (url : String)
  | reject (status : Nat) (error details : String)
  | ok (status : Nat) (contentType : String) (content : String) (url : String)
      (okFlag : Bool)
deriving DecidableEq, Repr

/-- `/proxy-docs` handler result. -/
inductive DocsResult where
  | noForward (resp : DocsResp)
  | forwarded (url : String) (resp : DocsResp)
deriving DecidableEq, Repr

/-- The `/proxy-docs` handler (`proxy_docs` in
`Backend/routes/proxy_routes.py`): URL-parameter presence, protocol gate,
unconditional SSRF check (no development-mode bypass), then the fetch;
`requests.exceptions.Timeout` is answered 504 and any other request
exception 500. -/
def proxy_docs (urlParam : Option String) (up : Upstream) : DocsResult :=
  match urlParam with
  | none => .noForward (.err 400 "URL parameter is required")
  | some url =>
    if url == "" then .noForward (.err 400 "URL parameter is required")
    else if !(startsWithStr url "http://" || startsWithStr url "https://") then
      .noForward (.err 400 "Invalid URL protocol")
    else
      let vd := is_safe_url url
      if !vd.safe then
        .noForward (.reject 403 "URL blocked for security reasons" vd.reason)
      else
        match up with
        | .success st _ hdrs text _ =>
          let ct := ((hdrs.find? (fun p => lowerStr p.1 == "content-type")).map
            Prod.snd).getD ""
          .forwarded url (.ok st ct text url (decide (200 ≤ st) && decide (st < 300)))
        | .timeoutErr _ =>
          .forwarded url (.err 504 "Request timed out while fetching documentation")
        | .connError m =>
          .forwarded url (.errWithUrl 500 ("Failed to fetch documentation: " ++ m) url)

/-! ### Claim C2: credential injection -/

/-- The first case-insensitive header match is also the first exact-name
match for its own name. -/
theorem find_exact_of_findCI (hs : List (String × String)) (n hk v : String)
    (h : hs.find? (fun p => lowerStr p.1 == n) = some (hk, v)) :
    hs.find? (fun p => p.1 == hk) = some (hk, v) := by
  induction hs with
  | nil => simp at h
  | cons a t ih =>
    cases hc : (lowerStr a.1 == n) with
    | true =>
      simp only [List.find?_cons, hc] at h
      injection h with h1
      subst h1
      simp [List.find?_cons]
    | false =>
      simp only [List.find?_cons, hc] at h
      have htail := ih h
      have hk_pred : (lowerStr hk == n) = true := by
        have hp := List.find?_some h
        simpa using hp
      have hne : (a.1 == hk) = false := by
        cases hq : (a.1 == hk) with
        | false => rfl
        | true =>
          have ha : a.1 = hk := eq_of_beq hq
          rw [ha, hk_pred] at hc
          cases hc
      simp only [List.find?_cons, hne]
      exact htail

/-- Overwriting the value of every pair named `hk` rewrites the first
exact-name match to the new value. -/
theorem find_exact_map_replace (hs : List (String × String)) (hk key v : String)
    (h : hs.find? (fun p => p.1 == hk) = some (hk, v)) :
    (hs.map (fun q => if q.1 == hk then (q.1, key) else q)).find?
      (fun p => p.1 == hk) = some (hk, key) := by
  induction hs with
  | nil => simp at h
  | cons a t ih =>
    cases hc : (a.1 == hk) with
    | true =>
      have ha : a.1 = hk := eq_of_beq hc
      simp [List.find?_cons, hc, ha]
    | false =>
      simp only [List.find?_cons, hc] at h
      simp only [List.map_cons, hc, Bool.false_eq_true, if_false, List.find?_cons]
      exact ih h

/-- A successful lookup is unchanged by appending further headers. -/
theorem headerLookup_append_left (hs t : List (String × String)) (n w : String)
    (h : headerLookup hs n = some w) : headerLookup (hs ++ t) n = some w := by
  unfold headerLookup at *
  rw [List.find?_append]
  cases hf : hs.find? (fun p => p.1 == n) with
  | none => rw [hf] at h; simp at h
  | some q => rw [hf] at h; simp_all

/-- If no header matches `n` case-insensitively, none matches `m` exactly
whenever `m` lowercases to `n`. -/
theorem exact_none_of_CI_none (hs : List (String × String)) (n m : String)
    (hm : lowerStr m = n)
    (h : hs.find? (fun p => lowerStr p.1 == n) = none) :
    hs.find? (fun p => p.1 == m) = none := by
  rw [List.find?_eq_none] at h ⊢
  intro x hx hpx
  have hx1 : x.1 = m := eq_of_beq hpx
  have hcx := h x hx
  rw [hx1, hm] at hcx
  simp at hcx

/-- Value replacement preserves the absence of a case-insensitive name
match. -/
theorem CI_none_map_replace (hs : List (String × String)) (n hk key : String)
    (h : hs.find? (fun p => lowerStr p.1 == n) = none) :
    (hs.map (fun q => if q.1 == hk then (q.1, key) else q)).find?
      (fun p => lowerStr p.1 == n) = none := by
  rw [List.find?_eq_none] at h ⊢
  intro x hx
  obtain ⟨q, hq, rfl⟩ := List.mem_map.mp hx
  have hq2 := h q hq
  cases hq1 : (q.1 == hk) <;> simp [hq1] <;> simpa using hq2

/-- Appending a fresh header makes it the lookup result for its name. -/
theorem headerLookup_append_pair (hs : List (String × String)) (name val : String)
    (h : hs.find? (fun p => p.1 == name) = none) :
    headerLookup (hs ++ [(name, val)]) name = some val := by
  unfold headerLookup
  rw [List.find?_append, h]
  simp [List.find?_cons]

/-- C2: for a `/proxy-api` request whose URL contains `api.anthropic.com`
with the server secret configured, a plausible caller credential (length at
least 20, not a placeholder, `sk-` prefix or longer than 50) is forwarded
unchanged under its header name; an implausible or absent credential is
replaced by / inserted as the server secret; `anthropic-version` defaults
to `2023-06-01` when absent; a 64-character alphanumeric value is kept
verbatim; every placeholder fails the plausibility test; and the headers
the pipeline forwards are exactly `injectAnthropic` of the caller headers
with the configured key. -/
theorem claim2_credential_injection :
    (∀ hs key hk v, findHeaderCI hs "x-api-key" = some (hk, v) →
       isValidAnthropicKey v = true →
       headerLookup (injectAnthropic hs key) hk = some v) ∧
    (∀ hs key hk v, findHeaderCI hs "x-api-key" = some (hk, v) →
       isValidAnthropicKey v = false →
       headerLookup (injectAnthropic hs key) hk = some key) ∧
    (∀ hs key, findHeaderCI hs "x-api-key" = none →
       headerLookup (injectAnthropic hs key) "x-api-key" = some key) ∧
    (∀ hs key, findHeaderCI hs "anthropic-version" = none →
       headerLookup (injectAnthropic hs key) "anthropic-version" = some "2023-06-01") ∧
    (headerLookup (injectAnthropic [("x-api-key", String.mk (List.replicate 64 'a'))]
        "server-secret") "x-api-key" = some (String.mk (List.replicate 64 'a'))) ∧
    (∀ p ∈ ANTHROPIC_PLACEHOLDERS, isValidAnthropicKey p = false) ∧
    (∀ env url m hs b up ob r k,
       proxy_api env (some ⟨some url, m, hs, b⟩) up = .forwarded ob r →
       strContains url "api.anthropic.com" = true →
       anthropicKeyTruthy env = some k →
       ob.headers = injectAnthropic hs k) := by
  refine ⟨?_, ?_, ?_, ?_, by decide, by decide, ?_⟩
  · intro hs key hk v hfind hvalid
    have hstep : injectKeyStep hs key = hs := by
      unfold injectKeyStep
      rw [show findHeaderCI hs "x-api-key" = some (hk, v) from hfind]
      simp [hvalid]
    have hexact := find_exact_of_findCI hs "x-api-key" hk v hfind
    have hbase : headerLookup hs hk = some v := by
      unfold headerLookup; rw [hexact]; rfl
    unfold injectAnthropic
    rw [hstep]
    cases hv : findHeaderCI hs "anthropic-version" with
    | some q => exact hbase
    | none => exact headerLookup_append_left _ _ _ _ hbase
  · intro hs key hk v hfind hinvalid
    have hstep : injectKeyStep hs key
        = hs.map (fun q => if q.1 == hk then (q.1, key) else q) := by
      unfold injectKeyStep
      rw [show findHeaderCI hs "x-api-key" = some (hk, v) from hfind]
      simp [hinvalid]
    have hexact := find_exact_of_findCI hs "x-api-key" hk v hfind
    have hrepl := find_exact_map_replace hs hk key v hexact
    have hbase : headerLookup (hs.map (fun q => if q.1 == hk then (q.1, key) else q)) hk
        = some key := by
      unfold headerLookup; rw [hrepl]; rfl
    unfold injectAnthropic
    rw [hstep]
    cases hv : findHeaderCI (hs.map (fun q => if q.1 == hk then (q.1, key) else q))
        "anthropic-version" with
    | some q => exact hbase
    | none => exact headerLookup_append_left _ _ _ _ hbase
  · intro hs key hnone
    have hstep : injectKeyStep hs key = hs ++ [("x-api-key", key)] := by
      unfold injectKeyStep
      rw [show findHeaderCI hs "x-api-key" = none from hnone]
    have hexact : hs.find? (fun p => p.1 == "x-api-key") = none :=
      exact_none_of_CI_none hs "x-api-key" "x-api-key" (by decide) hnone
    have hbase : headerLookup (hs ++ [("x-api-key", key)]) "x-api-key" = some key :=
      headerLookup_append_pair hs "x-api-key" key hexact
    unfold injectAnthropic
    rw [hstep]
    cases hv : findHeaderCI (hs ++ [("x-api-key", key)]) "anthropic-version" with
    | some q => exact hbase
    | none => exact headerLookup_append_left _ _ _ _ hbase
  · intro hs key hvnone
    have hvnone2 : hs.find? (fun p => lowerStr p.1 == "anthropic-version") = none := hvnone
    have hstep : findHeaderCI (injectKeyStep hs key) "anthropic-version" = none := by
      unfold injectKeyStep
      cases hf : findHeaderCI hs "x-api-key" with
      | some p =>
        cases hvalid : isValidAnthropicKey p.2 with
        | true => simpa [hvalid] using hvnone
        | false =>
          simp only [hvalid, Bool.false_eq_true, if_false]
          exact CI_none_map_replace hs "anthropic-version" p.1 key hvnone2
      | none =>
        show findHeaderCI (hs ++ [("x-api-key", key)]) "anthropic-version" = none
        unfold findHeaderCI
        rw [List.find?_append, hvnone2]
        have hone : (lowerStr "x-api-key" == "anthropic-version") = false := by decide
        simp [List.find?_cons, hone]
    unfold injectAnthropic
    rw [hstep]
    exact headerLookup_append_pair _ "anthropic-version" "2023-06-01"
      (exact_none_of_CI_none _ "anthropic-version" "anthropic-version"
        (by decide) (by simpa [findHeaderCI] using hstep))
  · intro env url m hs b up ob r k hres hurl hkey
    simp only [proxy_api, hurl, hkey] at hres
    split at hres
    · simp at hres
    · split at hres
      · simp at hres
      · split at hres
        · simp at hres
        · split at hres
          · simp at hres
          · injection hres with h1 h2
            subst h1
            rfl

/-- Witness for C2: the placeholder `YOUR_API_KEY` is replaced by the
server secret. -/
theorem claim2_witness :
    findHeaderCI [("X-Api-Key", "YOUR_API_KEY")] "x-api-key"
      = some ("X-Api-Key", "YOUR_API_KEY") ∧
    isValidAnthropicKey "YOUR_API_KEY" = false ∧
    headerLookup (injectAnthropic [("X-Api-Key", "YOUR_API_KEY")] "server-secret")
      "X-Api-Key" = some "server-secret" :=
  ⟨by decide, by decide,
   claim2_credential_injection.2.1 [("X-Api-Key", "YOUR_API_KEY")] "server-secret"
     "X-Api-Key" "YOUR_API_KEY" (by decide) (by decide)⟩

/-! ### Claims C3, C4, C5, C9, C10: the orchestrator -/

/-- C3 counterexample: with `FLASK_ENV=development`, a URL the classifier
rejects is nevertheless forwarded when it contains `localhost`, so the
unconditional 403-for-unsafe-URL claim fails. -/
theorem claim3_counterexample :
    (is_safe_url "http://localhost:8000/x").safe = false ∧
    proxy_api ⟨some "development", none, none⟩
      (some ⟨some "http://localhost:8000/x", "GET", [], .val .pyNone⟩)
      (.success 200 "OK" [] "hi" none)
      = .forwarded ⟨"GET", "http://localhost:8000/x", []⟩
          (.ok ⟨200, "OK", [], .textD "hi", "http://localhost:8000/x"⟩) :=
  ⟨by decide, by decide⟩

/-- C3 (amended): the validators run in the order URL safety, body size,
headers, short-circuiting on the first failure with 403 / 413 / 400 and a
structured `{error, details, suggestion}` payload quoting the validator
reason, and a rejected request is never forwarded — except that an unsafe
URL containing `localhost`, `127.0.0.1` or `0.0.0.0` is waved through in
development mode (`FLASK_ENV=development` or `FLASK_DEBUG=1`). -/
theorem claim3_amended_orchestrator :
    ∀ env url m hs b up,
      (url == "") = false →
      ((is_safe_url url).safe = false ∧ (isLocalhostUrl url && isDevMode env) = false →
        proxy_api env (some ⟨some url, m, hs, b⟩) up
          = .noForward (.reject 403 "URL blocked for security reasons"
              (is_safe_url url).reason
              "Ensure you are not trying to access localhost, private networks, or metadata services")) ∧
      (((is_safe_url url).safe = true ∨ (isLocalhostUrl url && isDevMode env) = true) →
        (validate_request_size b).safe = false →
        proxy_api env (some ⟨some url, m, hs, b⟩) up
          = .noForward (.reject 413 "Request body too large"
              (validate_request_size b).reason "Reduce the size of your request body")) ∧
      (((is_safe_url url).safe = true ∨ (isLocalhostUrl url && isDevMode env) = true) →
        (validate_request_size b).safe = true →
        (validate_headers (headersAsPy hs)).safe = false →
        proxy_api env (some ⟨some url, m, hs, b⟩) up
          = .noForward (.reject 400 "Invalid request headers"
              (validate_headers (headersAsPy hs)).reason
              "Check your headers for invalid characters or excessive length")) := by
  intro env url m hs b up hne
  refine ⟨?_, ?_, ?_⟩
  · rintro ⟨hsafe, hby⟩
    simp only [proxy_api, hne, hsafe, hby, Bool.false_eq_true, if_false,
      Bool.not_false, Bool.and_self, if_true]
  · intro hok hsize
    have hcond : (!(is_safe_url url).safe && !(isLocalhostUrl url && isDevMode env))
        = false := by
      rcases hok with h | h <;> simp [h]
    simp only [proxy_api, hne, hcond, hsize, Bool.false_eq_true, if_false,
      Bool.not_false, if_true]
  · intro hok hsize hhdr
    have hcond : (!(is_safe_url url).safe && !(isLocalhostUrl url && isDevMode env))
        = false := by
      rcases hok with h | h <;> simp [h]
    simp only [proxy_api, hne, hcond, hsize, hhdr, Bool.false_eq_true, if_false,
      Bool.not_false, Bool.not_true, if_true]

/-- Witness for C3 at the metadata-service address (403 with the
classifier reason as `details`). -/
theorem claim3_witness :
    proxy_api ⟨none, none, none⟩
      (some ⟨some "http://169.254.169.254/", "GET", [], .val .pyNone⟩)
      (.success 200 "OK" [] "" none)
      = .noForward (.reject 403 "URL blocked for security reasons"
          (is_safe_url "http://169.254.169.254/").reason
          "Ensure you are not trying to access localhost, private networks, or metadata services") :=
  (claim3_amended_orchestrator ⟨none, none, none⟩ "http://169.254.169.254/" "GET" []
    (.val .pyNone) (.success 200 "OK" [] "" none) (by decide)).1 ⟨by decide, by decide⟩

/-- C4 counterexample: both a connection failure and a timeout on the
outbound `/proxy-api` request yield status 500, not the claimed 502 / 504
(every `requests.exceptions.RequestException` lands in the same handler). -/
theorem claim4_counterexample :
    (proxy_api ⟨none, none, none⟩
      (some ⟨some "https://example.org/a", "GET", [], .val .pyNone⟩)
      (.connError "boom")
      = .forwarded ⟨"GET", "https://example.org/a", []⟩
          (.err 500 "Request failed: boom")) ∧
    (proxy_api ⟨none, none, none⟩
      (some ⟨some "https://example.org/a", "GET", [], .val .pyNone⟩)
      (.timeoutErr "slow")
      = .forwarded ⟨"GET", "https://example.org/a", []⟩
          (.err 500 "Request failed: slow")) ∧
    (500 ≠ 502) ∧ (500 ≠ 504) :=
  ⟨by decide, by decide, by decide, by decide⟩

/-- C4 (amended): every forwarding failure in `/proxy-api` — connection
error or timeout alike — is answered with status 500 and a
`Request failed:` message; `/proxy-docs` distinguishes the classes,
answering 504 for a timeout and 500 (with the URL echoed) for other
request failures. -/
theorem claim4_amended_forward_failures :
    (∀ env d up ob r m, proxy_api env d up = .forwarded ob r →
       up = .connError m → r = .err 500 ("Request failed: " ++ m)) ∧
    (∀ env d up ob r m, proxy_api env d up = .forwarded ob r →
       up = .timeoutErr m → r = .err 500 ("Request failed: " ++ m)) ∧
    (∀ url up u r m, proxy_docs (some url) up = .forwarded u r →
       up = .timeoutErr m →
       r = .err 504 "Request timed out while fetching documentation") ∧
    (∀ url up u r m, proxy_docs (some url) up = .forwarded u r →
       up = .connError m →
       r = .errWithUrl 500 ("Failed to fetch documentation: " ++ m) url) := by
  refine ⟨?_, ?_, ?_, ?_⟩
  · intro env d up ob r m hres hup
    subst hup
    simp only [proxy_api] at hres
    repeat' split at hres
    all_goals (first
      | (injection hres; done)
      | (injection hres with h1 h2; rw [← h2]; try rfl))
  · intro env d up ob r m hres hup
    subst hup
    simp only [proxy_api] at hres
    repeat' split at hres
    all_goals (first
      | (injection hres; done)
      | (injection hres with h1 h2; rw [← h2]; try rfl))
  · intro url up u r m hres hup
    subst hup
    simp only [proxy_docs] at hres
    repeat' split at hres
    all_goals (first
      | (injection hres; done)
      | (injection hres with h1 h2; rw [← h2]; try rfl))
  · intro url up u r m hres hup
    subst hup
    simp only [proxy_docs] at hres
    repeat' split at hres
    all_goals (first
      | (injection hres; done)
      | (injection hres with h1 h2; rw [← h2]; try rfl))

/-- Witness for C4: a concrete connection failure is answered 500. -/
theorem claim4_witness :
    (HttpResp.err 500 "Request failed: boom")
      = .err 500 ("Request failed: " ++ "boom") :=
  claim4_amended_forward_failures.1 ⟨none, none, none⟩
    (some ⟨some "https://example.org/a", "GET", [], .val .pyNone⟩) (.connError "boom")
    ⟨"GET", "https://example.org/a", []⟩ (.err 500 "Request failed: boom") "boom"
    (by decide) rfl

/-- C5 counterexample: with the server secret unset, the 500 response body
is the fixed string `Anthropic API key not configured on server`, which
names the missing secret — the error message is not generic. -/
theorem claim5_counterexample :
    proxy_api ⟨none, none, none⟩
      (some ⟨some "https://api.anthropic.com/v1/messages", "POST", [], .val .pyNone⟩)
      (.success 200 "OK" [] "" none)
      = .noForward (.err 500 "Anthropic API key not configured on server") ∧
    strContains "Anthropic API key not configured on server" "Anthropic" = true :=
  ⟨by decide, by decide⟩

/-- C5 (amended): when the target URL contains `api.anthropic.com` and the
`ANTHROPIC_API_KEY` environment variable is unset or empty, every request
that passes the validators fails with HTTP 500 before any outbound request
is made (regardless of the caller credential), and the error message is
the fixed string `Anthropic API key not configured on server`, which names
the missing secret. -/
theorem claim5_amended_config_error :
    ∀ env url m hs b up,
      strContains url "api.anthropic.com" = true →
      anthropicKeyTruthy env = none →
      (url == "") = false →
      ((is_safe_url url).safe = true ∨ (isLocalhostUrl url && isDevMode env) = true) →
      (validate_request_size b).safe = true →
      (validate_headers (headersAsPy hs)).safe = true →
      proxy_api env (some ⟨some url, m, hs, b⟩) up
        = .noForward (.err 500 "Anthropic API key not configured on server") := by
  intro env url m hs b up hurl hkey hne hok hsize hhdr
  have hcond : (!(is_safe_url url).safe && !(isLocalhostUrl url && isDevMode env))
      = false := by
    rcases hok with h | h <;> simp [h]
  simp only [proxy_api, hne, hcond, hsize, hhdr, hurl, hkey, Bool.false_eq_true,
    if_false, Bool.not_false, Bool.not_true, if_true]

/-- Witness for C5 with `ANTHROPIC_API_KEY` set to the empty string (falsy
in Python). -/
theorem claim5_witness :
    proxy_api ⟨some "production", none, some ""⟩
      (some ⟨some "https://api.anthropic.com/v1/messages", "GET", [], .val .pyNone⟩)
      (.success 200 "OK" [] "" none)
      = .noForward (.err 500 "Anthropic API key not configured on server") :=
  claim5_amended_config_error ⟨some "production", none, some ""⟩
    "https://api.anthropic.com/v1/messages" "GET" [] (.val .pyNone)
    (.success 200 "OK" [] "" none) (by decide) (by decide) (by decide)
    (Or.inl (by decide)) (by decide) (by decide)

/-- C9: every successful forward through `/proxy-api` answers with the
`{status, statusText, headers, data, url}` payload where `data` is the
parsed JSON when the upstream body parses as JSON and the raw text
otherwise, and `url` is the caller-supplied target URL. -/
theorem claim9_response_body :
    ∀ env url m hs b ob r st reason rh text parsed,
      proxy_api env (some ⟨some url, m, hs, b⟩) (.success st reason rh text parsed)
        = .forwarded ob r →
      r = .ok ⟨st, (if st == 200 then "OK" else reason), rh,
        (match parsed with
         | some v => RespData.jsonD v
         | none => RespData.textD text), url⟩ := by
  intro env url m hs b ob r st reason rh text parsed hres
  simp only [proxy_api] at hres
  repeat' split at hres
  all_goals (first
    | (injection hres; done)
    | (injection hres with h1 h2; rw [← h2]; try rfl))

/-- Witness for C9 at a plain-text upstream response. -/
theorem claim9_witness :
    (HttpResp.ok ⟨200, "OK", [], .textD "hello", "https://example.org/"⟩)
      = .ok ⟨200, (if (200 : Nat) == 200 then "OK" else "nope"), [],
          (match (none : Option PyVal) with
           | some v => RespData.jsonD v
           | none => RespData.textD "hello"), "https://example.org/"⟩ :=
  claim9_response_body ⟨none, none, none⟩ "https://example.org/" "GET" [] (.val .pyNone)
    ⟨"GET", "https://example.org/", []⟩
    (.ok ⟨200, "OK", [], .textD "hello", "https://example.org/"⟩)
    200 "nope" [] "hello" none (by decide)

/-- C10: in development mode `/proxy-api` forwards classifier-unsafe URLs
whose text contains `localhost`, `127.0.0.1` or `0.0.0.0`
(case-insensitively); every other unsafe URL is rejected 403 regardless of
environment (the hostname `169.254.169.254` contains none of the three
substrings); and `/proxy-docs` never forwards a classifier-unsafe URL in
any environment. -/
theorem claim10_dev_bypass :
    (∀ env url m hs b up,
      isDevMode env = true → (is_safe_url url).safe = false →
      isLocalhostUrl url = true → (url == "") = false →
      (validate_request_size b).safe = true →
      (validate_headers (headersAsPy hs)).safe = true →
      strContains url "api.anthropic.com" = false →
      proxy_api env (some ⟨some url, m, hs, b⟩) up
        = .forwarded ⟨upperStr m, url, hs⟩ (proxyForwardResp url up)) ∧
    (∀ env url m hs b up,
      (is_safe_url url).safe = false → isLocalhostUrl url = false →
      (url == "") = false →
      proxy_api env (some ⟨some url, m, hs, b⟩) up
        = .noForward (.reject 403 "URL blocked for security reasons"
            (is_safe_url url).reason
            "Ensure you are not trying to access localhost, private networks, or metadata services")) ∧
    ((is_safe_url "http://169.254.169.254/latest/meta-data/").safe = false ∧
     isLocalhostUrl "http://169.254.169.254/latest/meta-data/" = false) ∧
    (∀ url up, (is_safe_url url).safe = false →
      ∃ resp, proxy_docs (some url) up = .noForward resp) := by
  refine ⟨?_, ?_, ⟨by decide, by decide⟩, ?_⟩
  · intro env url m hs b up hdev hsafe hloc hne hsize hhdr hnoanth
    simp only [proxy_api, hne, hdev, hsafe, hloc, hsize, hhdr, hnoanth,
      Bool.false_eq_true, if_false, Bool.not_false, Bool.not_true, Bool.and_self,
      Bool.and_true, Bool.true_and, if_true]
  · intro env url m hs b up hsafe hloc hne
    simp only [proxy_api, hne, hsafe, hloc, Bool.false_eq_true, if_false,
      Bool.not_false, Bool.false_and, Bool.and_false, Bool.and_self, if_true]
  · intro url up hunsafe
    unfold proxy_docs
    cases he : (url == "") with
    | true =>
      exact ⟨DocsResp.err 400 "URL parameter is required", by simp [he]⟩
    | false =>
      cases hp : (startsWithStr url "http://" || startsWithStr url "https://") with
      | false =>
        refine ⟨DocsResp.err 400 "Invalid URL protocol", ?_⟩
        simp only [he, hp, Bool.false_eq_true, if_false, Bool.not_false, if_true]
      | true =>
        refine ⟨DocsResp.reject 403 "URL blocked for security reasons"
          (is_safe_url url).reason, ?_⟩
        simp only [he, hp, hunsafe, Bool.false_eq_true, if_false, Bool.not_true,
          Bool.not_false, if_true]

/-- Witness for C10: a `127.0.0.1` URL is forwarded in development mode. -/
theorem claim10_witness :
    proxy_api ⟨some "development", none, none⟩
      (some ⟨some "http://127.0.0.1:5000/api", "GET", [], .val .pyNone⟩)
      (.success 200 "OK" [] "pong" none)
      = .forwarded ⟨upperStr "GET", "http://127.0.0.1:5000/api", []⟩
          (proxyForwardResp "http://127.0.0.1:5000/api"
            (.success 200 "OK" [] "pong" none)) :=
  claim10_dev_bypass.1 ⟨some "development", none, none⟩ "http://127.0.0.1:5000/api"
    "GET" [] (.val .pyNone) (.success 200 "OK" [] "pong" none)
    (by decide) (by decide) (by decide) (by decide) (by decide) (by decide) (by decide)

end AskProxy
